import Mathlib

-- Verification development for the work_API HTTP service.
-- The service is embedded shallowly: each Express route handler becomes a
-- Lean function over an explicit database state (a list of rows); SQL
-- statements executed through the pg driver become pure operations on that
-- state; the JSON bodies of requests become lists of key/value pairs in
-- declaration order (mirroring JavaScript object iteration order).

set_option maxHeartbeats 1000000

namespace WorkAPI

-- ## JSON values
-- Request bodies are JSON.  The handlers under scrutiny only ever inspect
-- string, numeric and null leaves, so the embedding keeps the value type flat.

inductive JValue where
  | str (s : String)
  | num (n : Int)
  | null
deriving Repr, DecidableEq

-- ## Data model (db.js initDB / migrations)
-- users(id SERIAL, username UNIQUE NOT NULL, password TEXT NOT NULL,
--       email, created_at TIMESTAMP DEFAULT now)
-- product(product_id SERIAL, product_name NOT NULL, description TEXT,
--         quantity INTEGER NOT NULL DEFAULT 0, price DECIMAL(10,2) NOT NULL,
--         currentstamp TIMESTAMP DEFAULT now)
-- Timestamps are abstract instants (Nat); DECIMAL(10,2) prices are modelled
-- as integer hundredths, which is faithful for every claim considered here
-- (no claim depends on decimal arithmetic).

structure UserRow where
  id : Nat
  username : String
  password : String
  email : Option String
  created_at : Nat
deriving Repr, DecidableEq

structure ProductRow where
  product_id : Nat
  product_name : String
  description : String
  quantity : Int
  price : Int
  currentstamp : Nat
deriving Repr, DecidableEq

-- ## PATCH /product/:id (src/unnamed/part_000, lines 214-259)
-- The handler walks the keys of the request body in order, skipping only the
-- literal key "product_id", and pushes the clause text `key = $i` (the key is
-- spliced verbatim into the statement) together with the positional value.
--   for (const key in updates) {
--     if (updates.hasOwnProperty(key) && key !== 'product_id') {
--       setClauses.push(`${key} = $${valueIndex}`); values.push(updates[key]);
--       valueIndex++; } }
-- `buildSetClauses updates i` returns (setClauses, values) with the first
-- placeholder numbered `i` (the source starts at 1).

def buildSetClauses : List (String × JValue) → Nat → List String × List JValue
  | [], _ => ([], [])
  | (k, v) :: rest, i =>
    if k ≠ "product_id" then
      let (cs, vs) := buildSetClauses rest (i + 1)
      ((k ++ " = $" ++ toString i) :: cs, v :: vs)
    else
      buildSetClauses rest i

-- The UPDATE statement text assembled by the handler (template-literal
-- whitespace normalised to single spaces):
--   UPDATE product SET <clauses>, currentstamp = CURRENT_TIMESTAMP
--   WHERE product_id = $<idx> RETURNING *

def patchUpdateQueryText (updates : List (String × JValue)) : String :=
  let (setClauses, vals) := buildSetClauses updates 1
  "UPDATE product SET " ++ String.intercalate ", " setClauses ++
    ", currentstamp = CURRENT_TIMESTAMP WHERE product_id = $" ++
    toString (vals.length + 1) ++ " RETURNING *"

-- Executing the dynamic UPDATE against a row.  PostgreSQL resolves each
-- spliced key as a column name: a key naming a real product column assigns
-- that column (with the driver coercing the JSON value), any other key makes
-- the whole statement fail with an undefined-column error (modelled as none).

def applyField (r : ProductRow) (k : String) (v : JValue) : Option ProductRow :=
  if k = "product_name" then
    match v with | .str s => some { r with product_name := s } | _ => none
  else if k = "description" then
    match v with | .str s => some { r with description := s } | _ => none
  else if k = "quantity" then
    match v with | .num n => some { r with quantity := n } | _ => none
  else if k = "price" then
    match v with | .num n => some { r with price := n } | _ => none
  else if k = "currentstamp" then
    match v with | .num n => some { r with currentstamp := n.toNat } | _ => none
  else
    none

def applyFields (r : ProductRow) : List (String × JValue) → Option ProductRow
  | [] => some r
  | (k, v) :: rest =>
    match applyField r k v with
    | some r' => applyFields r' rest
    | none => none

inductive PatchResult where
  | ok (row : ProductRow)
  | notFound
  | dbError
deriving Repr, DecidableEq

-- The whole PATCH /product/:id handler: SELECT the row (404 when absent),
-- build the clause list excluding "product_id", answer 200 with the current
-- row when the list is empty (the UPDATE is never issued), otherwise run the
-- dynamic UPDATE which also refreshes currentstamp.

def patchProduct (db : List ProductRow) (pid : Nat)
    (updates : List (String × JValue)) (now : Nat) :
    PatchResult × List ProductRow :=
  match db.find? (fun r => r.product_id == pid) with
  | none => (.notFound, db)
  | some row =>
    let (setClauses, _) := buildSetClauses updates 1
    if setClauses.isEmpty then
      (.ok row, db)
    else
      match applyFields row (updates.filter (fun kv => kv.1 ≠ "product_id")) with
      | some r0 =>
        let r1 := { r0 with currentstamp := now }
        (.ok r1, db.map (fun x => if x.product_id == pid then r1 else x))
      | none => (.dbError, db)

-- Allow-list of the product's mutable column names, as the specification
-- demands it ("field names must be validated against an allow-list of real
-- column names").  Modelled from the spec for comparison with the source's
-- behaviour; the source itself maintains no such list.

def specMutableColumns : List String :=
  ["product_name", "description", "quantity", "price"]

-- `buildSetClauses` yields no clause exactly when every key is the identifier.

theorem buildSetClauses_eq_nil (updates : List (String × JValue)) (i : Nat)
    (h : updates.filter (fun kv => kv.1 ≠ "product_id") = []) :
    buildSetClauses updates i = ([], []) := by
  induction updates generalizing i with
  | nil => rfl
  | cons kv rest ih =>
    rw [List.filter_cons] at h
    by_cases hk : kv.1 = "product_id"
    · have h' : rest.filter (fun kv => kv.1 ≠ "product_id") = [] := by
        rwa [if_neg (by simp [hk])] at h
      simp only [buildSetClauses, hk, ne_eq, not_true_eq_false, ite_false]
      exact ih _ h'
    · rw [if_pos (by simp [hk])] at h
      exact absurd h (List.cons_ne_nil _ _)

/-- Claim C1: the PATCH handler trusts arbitrary caller-supplied keys as
column names.  The key "evil", which is not in the allow-list of mutable
product columns, is interpolated verbatim into the UPDATE statement text,
contradicting the claim that non-allow-listed keys are rejected or ignored
before the statement is built and that no caller key reaches the SQL text. -/
theorem C1_patch_interpolates_caller_key :
    patchUpdateQueryText [("evil", JValue.num 1)] =
      "UPDATE product SET evil = $1, currentstamp = CURRENT_TIMESTAMP WHERE product_id = $2 RETURNING *"
    ∧ "evil" ∉ specMutableColumns := by
  constructor
  · rfl
  · decide

/-- Claim C5: a PATCH whose body, after excluding the identifier key,
contains zero applicable fields is a no-op: the handler answers 200 with the
current row and the database is unchanged (no column and no currentstamp
write happens, since the UPDATE statement is never issued). -/
theorem C5_patch_empty_noop (db : List ProductRow) (pid : Nat)
    (updates : List (String × JValue)) (now : Nat) (row : ProductRow)
    (hfind : db.find? (fun r => r.product_id == pid) = some row)
    (hempty : updates.filter (fun kv => kv.1 ≠ "product_id") = []) :
    patchProduct db pid updates now = (.ok row, db) := by
  unfold patchProduct
  rw [hfind, buildSetClauses_eq_nil updates 1 hempty]
  rfl

/-- Witness for C5 at a concrete input: a body holding only the identifier
key leaves the one-row database untouched and returns the stored row. -/
theorem C5_patch_empty_noop_witness :
    patchProduct [⟨7, "Widget", "", 5, 999, 0⟩] 7 [("product_id", JValue.num 999)] 42
      = (.ok ⟨7, "Widget", "", 5, 999, 0⟩, [⟨7, "Widget", "", 5, 999, 0⟩]) :=
  C5_patch_empty_noop _ _ _ _ _ (by rfl) (by rfl)

-- ## POST /products (src/app.js, lines 448-499)
-- The handler checks the body is an array, takes a connection, runs BEGIN,
-- loops over the items validating `!product_name || quantity === undefined
-- || price === undefined` (a thrown Error on failure) and inserting each
-- item, then COMMITs; any thrown error (validation or a failed insert)
-- lands in the catch block which runs ROLLBACK and answers 500.
-- The transaction is modelled explicitly: a connection sees the committed
-- rows plus, inside a transaction, a private working copy; COMMIT publishes
-- the working copy, ROLLBACK discards it.

structure PSpec where
  product_name : Option String
  description : Option String
  quantity : Option Int
  price : Option Int
deriving Repr, DecidableEq

-- JavaScript validity test on one item; a present-but-empty name is falsy.

def validItem (p : PSpec) : Bool :=
  (match p.product_name with
   | some s => s ≠ ""
   | none => false)
  && p.quantity.isSome && p.price.isSome

structure TxDB where
  committed : List ProductRow
  txn : Option (List ProductRow)
deriving Repr, DecidableEq

def txBegin (c : TxDB) : TxDB := { c with txn := some c.committed }

def txInsert (r : ProductRow) (c : TxDB) : TxDB :=
  match c.txn with
  | some v => { c with txn := some (v ++ [r]) }
  | none => { c with committed := c.committed ++ [r] }

def txCommit (c : TxDB) : TxDB :=
  match c.txn with
  | some v => { committed := v, txn := none }
  | none => c

def txRollback (c : TxDB) : TxDB := { c with txn := none }

-- Row produced by
--   INSERT INTO product (product_name, description, quantity, price)
--   VALUES ($1,$2,$3,$4)
-- with `description || ''`, a serial product_id and the currentstamp default.

def mkProductRow (nid now : Nat) (p : PSpec) : ProductRow :=
  { product_id := nid
    product_name := p.product_name.getD ""
    description := p.description.getD ""
    quantity := p.quantity.getD 0
    price := p.price.getD 0
    currentstamp := now }

def mkProductRows (now : Nat) : Nat → List PSpec → List ProductRow
  | _, [] => []
  | nid, p :: rest => mkProductRow nid now p :: mkProductRows now (nid + 1) rest

-- The insert loop inside the transaction.  `insertOk k` says whether the
-- k-th INSERT succeeds at the database (a failed insert throws).  The error
-- branch carries the connection state so the catch block can ROLLBACK it.

def createLoop (insertOk : Nat → Bool) (now : Nat) :
    List PSpec → TxDB → Nat → Nat → List ProductRow →
    TxDB ⊕ (TxDB × List ProductRow)
  | [], c, _, _, acc => .inr (c, acc)
  | p :: rest, c, nid, k, acc =>
    if validItem p then
      if insertOk k then
        let row := mkProductRow nid now p
        createLoop insertOk now rest (txInsert row c) (nid + 1) (k + 1)
          (acc ++ [row])
      else
        .inl c
    else
      .inl c

-- The whole handler on an array body, returning (status, committed rows).

def createProducts (insertOk : Nat → Bool) (now nid : Nat)
    (items : List PSpec) (db : List ProductRow) : Nat × List ProductRow :=
  let c0 := txBegin { committed := db, txn := none }
  match createLoop insertOk now items c0 nid 0 [] with
  | .inr (c, _) => (201, (txCommit c).committed)
  | .inl c => (500, (txRollback c).committed)

-- Invariant of the insert loop: the committed rows never change while the
-- transaction is open, and the working copy is exactly committed ++ acc.

theorem createLoop_spec (insertOk : Nat → Bool) (now : Nat) :
    ∀ (items : List PSpec) (db acc : List ProductRow) (nid k : Nat),
    (match createLoop insertOk now items { committed := db, txn := some (db ++ acc) } nid k acc with
     | .inr (c, res) =>
         c.committed = db ∧ c.txn = some (db ++ res) ∧
         res = acc ++ mkProductRows now nid items ∧ items.all validItem
     | .inl c => c.committed = db) := by
  intro items
  induction items with
  | nil =>
    intro db acc nid k
    simp [createLoop, mkProductRows]
  | cons p rest ih =>
    intro db acc nid k
    by_cases hv : validItem p = true
    · by_cases hins : insertOk k = true
      · have h := ih db (acc ++ [mkProductRow nid now p]) (nid + 1) (k + 1)
        rw [← List.append_assoc] at h
        simp only [createLoop, hv, hins, if_true, txInsert]
        revert h
        cases hres : createLoop insertOk now rest
            { committed := db, txn := some (db ++ acc ++ [mkProductRow nid now p]) }
            (nid + 1) (k + 1) (acc ++ [mkProductRow nid now p]) with
        | inl c => exact fun h => h
        | inr cr =>
          intro h
          refine ⟨h.1, h.2.1, ?_, ?_⟩
          · rw [h.2.2.1, mkProductRows]
            simp
          · simp [List.all_cons, hv, h.2.2.2]
      · simp [createLoop, hv, hins]
    · simp [createLoop, hv]

/-- Claim C2: bulk product creation is all-or-nothing.  For every item list,
every database state and every pattern of database insert failures, the
handler either answers 201 having appended exactly one row per item (which
requires every item to have passed validation), or answers 500 with the
committed table exactly as before — never a partial subset. -/
theorem C2_createProducts_atomic (insertOk : Nat → Bool) (now nid : Nat)
    (items : List PSpec) (db : List ProductRow) :
    (createProducts insertOk now nid items db
        = (201, db ++ mkProductRows now nid items) ∧ items.all validItem)
    ∨ createProducts insertOk now nid items db = (500, db) := by
  have h := createLoop_spec insertOk now items db [] nid 0
  simp only [List.append_nil] at h
  have hgoal : createProducts insertOk now nid items db =
      (match createLoop insertOk now items { committed := db, txn := some db } nid 0 [] with
       | .inr (c, _) => (201, (txCommit c).committed)
       | .inl c => (500, (txRollback c).committed)) := rfl
  rw [hgoal]
  revert h
  cases hres : createLoop insertOk now items { committed := db, txn := some db } nid 0 [] with
  | inl c =>
    intro h
    right
    simp [txRollback, h]
  | inr cr =>
    intro h
    obtain ⟨c, res⟩ := cr
    obtain ⟨h1, h2, h3, h4⟩ := h
    left
    refine ⟨?_, h4⟩
    simp only [List.nil_append] at h3
    simp [txCommit, h2, h3]

-- ## Token extraction (authenticateToken, src/app.js lines 146-155 and
-- src/unnamed/part_001 lines 63-72; both variants share these two lines)
--   const token = authHeader && authHeader.split(' ')[1];
--   if (!token) { ... 401 MISSING_TOKEN ... }
-- JavaScript split(' ') splits at every single space character, [1] is
-- undefined when fewer than two parts exist, and both undefined and the
-- empty string are falsy; `extractToken` returns none in exactly the cases
-- where the JavaScript token is falsy.

def jsSplitSpaceAux : List Char → List Char → List String
  | [], cur => [String.mk cur.reverse]
  | c :: rest, cur =>
    if c = ' ' then
      String.mk cur.reverse :: jsSplitSpaceAux rest []
    else
      jsSplitSpaceAux rest (c :: cur)

-- JavaScript `s.split(' ')`: cut at every single space character, keeping
-- empty parts (so consecutive spaces yield empty strings, as in JS).

def jsSplitSpace (s : String) : List String :=
  jsSplitSpaceAux s.data []

def extractToken (authHeader : Option String) : Option String :=
  match authHeader with
  | none => none
  | some h =>
    match (jsSplitSpace h).get? 1 with
    | none => none
    | some t => if t = "" then none else some t

-- ## Idealized JWT (the jsonwebtoken dependency)
-- The service signs { id, username } with a secret and an expiry window and
-- verifies statelessly.  The library is external to the repository, so its
-- sign/verify pair is modelled as an ideal MAC: a token records its payload,
-- the key it was signed with and its absolute expiry instant; verification
-- succeeds exactly when the keys agree and the clock is before the expiry.

structure Payload where
  id : Nat
  username : String
deriving Repr, DecidableEq

structure Token where
  payload : Payload
  signedWith : String
  exp : Nat
deriving Repr, DecidableEq

inductive VerifyErr where
  | expired
  | invalid
deriving Repr, DecidableEq

def jwtSign (secret : String) (p : Payload) (now expiry : Nat) : Token :=
  { payload := p, signedWith := secret, exp := now + expiry }

def jwtVerify (secret : String) (t : Token) (clock : Nat) :
    Except VerifyErr Payload :=
  if t.signedWith ≠ secret then .error .invalid
  else if t.exp ≤ clock then .error .expired
  else .ok t.payload

-- process.env.JWT_SECRET || 'default_jwt_secret' (src/app.js lines 141, 158)

def jwtSecret (env : Option String) : String :=
  env.getD "default_jwt_secret"

-- generateToken (src/app.js lines 138-144): sign { id, username }.

def generateToken (env : Option String) (u : UserRow) (now expiry : Nat) :
    Token :=
  jwtSign (jwtSecret env) { id := u.id, username := u.username } now expiry

-- ## The authentication gates
-- `GateOutcome.pass u` means the gate called next() with req.user = u, i.e.
-- the route handler runs; every `reject` is a terminal JSON response and the
-- handler is never invoked.

inductive GateOutcome where
  | pass (user : Payload)
  | reject (status : Nat) (message : String) (error : String)
deriving Repr, DecidableEq

-- src/app.js lines 146-168: one catch-all 403 INVALID_TOKEN for every
-- verification failure, expired tokens included.

def authenticateToken (verify : String → Except VerifyErr Payload)
    (authHeader : Option String) : GateOutcome :=
  match extractToken authHeader with
  | none => .reject 401 "Access token required" "MISSING_TOKEN"
  | some t =>
    match verify t with
    | .ok u => .pass u
    | .error _ => .reject 403 "Invalid or expired token" "INVALID_TOKEN"

-- src/unnamed/part_001 lines 63-86: distinguishes TokenExpiredError.

def authenticateTokenV2 (verify : String → Except VerifyErr Payload)
    (authHeader : Option String) : GateOutcome :=
  match extractToken authHeader with
  | none => .reject 401 "Access token required" "MISSING_TOKEN"
  | some t =>
    match verify t with
    | .ok u => .pass u
    | .error .expired => .reject 403 "Token expired" "TOKEN_EXPIRED"
    | .error .invalid => .reject 403 "Invalid token" "INVALID_TOKEN"

/-- Claim C3 counterexample: at a header carrying a token whose verification
fails with an expiry error, the src/app.js gate answers 403 with error code
INVALID_TOKEN, not TOKEN_EXPIRED as the claim states. -/
theorem C3_expired_gets_invalid_token_code :
    authenticateToken (fun _ => .error .expired) (some "Bearer t")
      = .reject 403 "Invalid or expired token" "INVALID_TOKEN"
    ∧ authenticateToken (fun _ => .error .expired) (some "Bearer t")
      ≠ .reject 403 "Token expired" "TOKEN_EXPIRED" := by
  constructor
  · rfl
  · decide

/-- Claim C3 as amended: a header yielding no token is answered 401
MISSING_TOKEN by both gate variants; when a token is present, an expired
token is answered 403 with TOKEN_EXPIRED by the part_001 gate but with
INVALID_TOKEN by the src/app.js gate, a malformed or badly signed token is
answered 403 INVALID_TOKEN by both, and in every one of these failure cases
the gate returns a reject, so the route handler is never invoked; a
verifying token passes with the decoded identity. -/
theorem C3_gate_behavior (verify : String → Except VerifyErr Payload)
    (authHeader : Option String) :
    (extractToken authHeader = none →
      authenticateToken verify authHeader
          = .reject 401 "Access token required" "MISSING_TOKEN"
        ∧ authenticateTokenV2 verify authHeader
          = .reject 401 "Access token required" "MISSING_TOKEN")
    ∧ (∀ t, extractToken authHeader = some t →
        (verify t = .error .expired →
          authenticateToken verify authHeader
              = .reject 403 "Invalid or expired token" "INVALID_TOKEN"
            ∧ authenticateTokenV2 verify authHeader
              = .reject 403 "Token expired" "TOKEN_EXPIRED")
        ∧ (verify t = .error .invalid →
            authenticateToken verify authHeader
                = .reject 403 "Invalid or expired token" "INVALID_TOKEN"
              ∧ authenticateTokenV2 verify authHeader
                = .reject 403 "Invalid token" "INVALID_TOKEN")
        ∧ (∀ p, verify t = .ok p →
            authenticateToken verify authHeader = .pass p
              ∧ authenticateTokenV2 verify authHeader = .pass p)) := by
  refine ⟨fun hnone => ?_, fun t ht => ⟨fun hexp => ?_, fun hinv => ?_, fun p hok => ?_⟩⟩
  · simp [authenticateToken, authenticateTokenV2, hnone]
  · simp [authenticateToken, authenticateTokenV2, ht, hexp]
  · simp [authenticateToken, authenticateTokenV2, ht, hinv]
  · simp [authenticateToken, authenticateTokenV2, ht, hok]

/-- Witness for C3's amended theorem at a concrete input: the two gates at a
"Bearer x" header whose token verification reports expiry. -/
theorem C3_gate_behavior_witness :
    authenticateToken (fun _ => .error .expired) (some "Bearer x")
        = .reject 403 "Invalid or expired token" "INVALID_TOKEN"
      ∧ authenticateTokenV2 (fun _ => .error .expired) (some "Bearer x")
        = .reject 403 "Token expired" "TOKEN_EXPIRED" :=
  ((C3_gate_behavior (fun _ => .error .expired) (some "Bearer x")).2
    "x" (by rfl)).1 (by rfl)

/-- Claim C10: the gate never checks the Authorization scheme.  It takes the
token to be the second space-separated part of the header, so a "Basic t"
header whose t verifies is accepted, while a header consisting of a single
part — the bare word "Bearer", or a bare token with no scheme prefix — is
treated as a missing token and rejected 401 MISSING_TOKEN. -/
theorem C10_gate_scheme_not_checked
    (verify : String → Except VerifyErr Payload) (t : String) (p : Payload)
    (hsplit : jsSplitSpace ("Basic " ++ t) = ["Basic", t])
    (hne : t ≠ "")
    (hok : verify t = .ok p) :
    authenticateToken verify (some ("Basic " ++ t)) = .pass p
    ∧ authenticateToken verify (some "Bearer")
        = .reject 401 "Access token required" "MISSING_TOKEN"
    ∧ ∀ bare, jsSplitSpace bare = [bare] →
        authenticateToken verify (some bare)
          = .reject 401 "Access token required" "MISSING_TOKEN" := by
  refine ⟨?_, by rfl, fun bare hbare => ?_⟩
  · simp [authenticateToken, extractToken, hsplit, hne, hok]
  · simp [authenticateToken, extractToken, hbare]

/-- Witness for C10 at a concrete input: the token "tok" presented under the
"Basic" scheme passes the gate. -/
theorem C10_gate_scheme_not_checked_witness :
    authenticateToken (fun s => if s = "tok" then .ok ⟨1, "alice"⟩ else .error .invalid)
        (some ("Basic " ++ "tok")) = .pass ⟨1, "alice"⟩ :=
  (C10_gate_scheme_not_checked
    (fun s => if s = "tok" then .ok ⟨1, "alice"⟩ else .error .invalid)
    "tok" ⟨1, "alice"⟩ (by rfl) (by decide) (by rfl)).1

-- ## User-facing response bodies (src/app.js)
-- Signup (lines 267-277) answers with user { id, username, email,
-- created_at }; login (lines 335-344) with user { id, username, email };
-- GET /users and GET /user/:id (lines 359-401) issue
-- SELECT id, username, email, created_at FROM users.

structure PublicUser where
  id : Nat
  username : String
  email : Option String
  created_at : Nat
deriving Repr, DecidableEq

structure LoginUserBody where
  id : Nat
  username : String
  email : Option String
deriving Repr, DecidableEq

def signupUserBody (u : UserRow) : PublicUser :=
  { id := u.id, username := u.username, email := u.email,
    created_at := u.created_at }

def loginUserBody (u : UserRow) : LoginUserBody :=
  { id := u.id, username := u.username, email := u.email }

def publicUser (u : UserRow) : PublicUser :=
  { id := u.id, username := u.username, email := u.email,
    created_at := u.created_at }

-- SELECT ... FROM users [WHERE id = $1].  The ORDER BY created_at DESC of
-- the list route only permutes rows by their created_at column and is
-- irrelevant to every claim considered, so it is not modelled.

def usersQuery (db : List UserRow) : List PublicUser :=
  db.map publicUser

def getUserQuery (db : List UserRow) (uid : Nat) : Option PublicUser :=
  (db.find? (fun u => u.id == uid)).map publicUser

-- SELECT * FROM users WHERE username = $1, first row.

def findUser (db : List UserRow) (uname : String) : Option UserRow :=
  db.find? (fun u => u.username == uname)

-- ## POST /login (src/app.js lines 298-354)
-- bcrypt.compare is external; it is the `compare` parameter.  A missing
-- body field arrives as the falsy empty string.

inductive LoginResult where
  | reject (status : Nat) (message : String) (error : String)
  | success (user : LoginUserBody) (token : Token)
deriving Repr, DecidableEq

def login (env : Option String) (compare : String → String → Bool)
    (db : List UserRow) (username password : String) (now expiry : Nat) :
    LoginResult :=
  if username = "" ∨ password = "" then
    .reject 400 "Username and password are required" "MISSING_FIELDS"
  else
    match findUser db username with
    | none => .reject 401 "Invalid username or password" "INVALID_CREDENTIALS"
    | some user =>
      if compare password user.password then
        .success (loginUserBody user) (generateToken env user now expiry)
      else
        .reject 401 "Invalid username or password" "INVALID_CREDENTIALS"

/-- Claim C8: the two login failure causes are indistinguishable.  Whether no
user with the given username exists or the password comparison fails, the
handler answers with one identical response: status 401, error code
INVALID_CREDENTIALS and the same generic message, so the caller cannot tell
the causes apart. -/
theorem C8_login_failures_indistinguishable (env : Option String)
    (compare : String → String → Bool) (db : List UserRow)
    (username password : String) (now expiry : Nat)
    (hu : username ≠ "") (hp : password ≠ "") :
    (findUser db username = none →
      login env compare db username password now expiry
        = .reject 401 "Invalid username or password" "INVALID_CREDENTIALS")
    ∧ (∀ user, findUser db username = some user →
        compare password user.password = false →
        login env compare db username password now expiry
          = .reject 401 "Invalid username or password" "INVALID_CREDENTIALS") := by
  constructor
  · intro hnone
    simp [login, hu, hp, hnone]
  · intro user hfound hcmp
    simp [login, hu, hp, hfound, hcmp]

/-- Witness for C8 at concrete inputs: against a one-user table, a login for
an unknown username and a login for the known username with a failing
password comparison produce the same response. -/
theorem C8_login_failures_indistinguishable_witness :
    login none (fun _ _ => false) [⟨1, "alice", "hash", none, 0⟩] "bob" "pw" 0 10
        = .reject 401 "Invalid username or password" "INVALID_CREDENTIALS"
      ∧ login none (fun _ _ => false) [⟨1, "alice", "hash", none, 0⟩] "alice" "pw" 0 10
        = .reject 401 "Invalid username or password" "INVALID_CREDENTIALS" :=
  ⟨(C8_login_failures_indistinguishable none (fun _ _ => false)
      [⟨1, "alice", "hash", none, 0⟩] "bob" "pw" 0 10
      (by decide) (by decide)).1 (by rfl),
   (C8_login_failures_indistinguishable none (fun _ _ => false)
      [⟨1, "alice", "hash", none, 0⟩] "alice" "pw" 0 10
      (by decide) (by decide)).2 ⟨1, "alice", "hash", none, 0⟩ (by rfl) (by rfl)⟩

/-- Claim C9: issueToken followed by verifyToken round-trips the identity.
A token generated for a user verifies, under the same secret configuration
and any clock before its expiry instant, to exactly the user's id and
username; and every valid login returns precisely such a freshly generated
token together with the user's public fields. -/
theorem C9_token_roundtrip (env : Option String) (u : UserRow)
    (now expiry clock : Nat) (hclock : clock < now + expiry) :
    jwtVerify (jwtSecret env) (generateToken env u now expiry) clock
        = .ok { id := u.id, username := u.username }
      ∧ ∀ (compare : String → String → Bool) (db : List UserRow)
          (username password : String) (user : UserRow),
          username ≠ "" → password ≠ "" →
          findUser db username = some user →
          compare password user.password = true →
          login env compare db username password now expiry
            = .success (loginUserBody user) (generateToken env user now expiry) := by
  constructor
  · simp [jwtVerify, generateToken, jwtSign, Nat.not_le.mpr hclock]
  · intro compare db username password user hu hp hfound hcmp
    simp [login, hu, hp, hfound, hcmp]

/-- Witness for C9 at a concrete input: alice's token, issued at instant 0
with a 10-unit expiry window, verifies at instant 3 to her identity, and her
login returns that token. -/
theorem C9_token_roundtrip_witness :
    jwtVerify (jwtSecret none) (generateToken none ⟨1, "alice", "hash", none, 0⟩ 0 10) 3
        = .ok { id := 1, username := "alice" }
      ∧ login none (fun _ _ => true) [⟨1, "alice", "hash", none, 0⟩] "alice" "secret1" 0 10
        = .success (loginUserBody ⟨1, "alice", "hash", none, 0⟩)
            (generateToken none ⟨1, "alice", "hash", none, 0⟩ 0 10) :=
  ⟨(C9_token_roundtrip none ⟨1, "alice", "hash", none, 0⟩ 0 10 3 (by decide)).1,
   (C9_token_roundtrip none ⟨1, "alice", "hash", none, 0⟩ 0 10 3 (by decide)).2
     (fun _ _ => true) [⟨1, "alice", "hash", none, 0⟩] "alice" "secret1"
     ⟨1, "alice", "hash", none, 0⟩ (by decide) (by decide) (by rfl) (by rfl)⟩

/-- Claim C4: no response ever carries the stored password hash.  Every
user-bearing response body — signup's and login's user objects, the rows of
GET /users and GET /user/:id, and the issued token — is built from the public
fields only: replacing the stored password hash of any user (by any function
of the row) leaves every one of these response values unchanged, and none of
the response types has a password field at all. -/
theorem C4_no_password_in_responses :
    (∀ (u : UserRow) (pw : String),
        signupUserBody { u with password := pw } = signupUserBody u)
    ∧ (∀ (u : UserRow) (pw : String),
        loginUserBody { u with password := pw } = loginUserBody u)
    ∧ (∀ (env : Option String) (u : UserRow) (pw : String) (now expiry : Nat),
        generateToken env { u with password := pw } now expiry
          = generateToken env u now expiry)
    ∧ (∀ (db : List UserRow) (f : UserRow → String),
        usersQuery (db.map (fun x => { x with password := f x })) = usersQuery db)
    ∧ (∀ (db : List UserRow) (f : UserRow → String) (uid : Nat),
        getUserQuery (db.map (fun x => { x with password := f x })) uid
          = getUserQuery db uid) := by
  refine ⟨fun u pw => rfl, fun u pw => rfl, fun env u pw now expiry => rfl,
    fun db f => ?_, fun db f uid => ?_⟩
  · induction db with
    | nil => rfl
    | cons u rest ih =>
      simp [usersQuery, publicUser] at ih ⊢
  · induction db with
    | nil => rfl
    | cons u rest ih =>
      simp only [getUserQuery, List.map_cons, List.find?] at ih ⊢
      by_cases hid : (u.id == uid) = true
      · simp [hid, publicUser]
      · simp only [hid]
        exact ih

-- ## Readiness gating (src/app.js)
-- checkDatabaseAvailability (lines 127-135) answers 503 and stops the chain
-- when isInitialized() is false; otherwise it calls next().  Each route is
-- registered with its middleware chain; GET /health (line 186) is the one
-- data-touching route registered without the guard.  GET / touches no data
-- and is outside the claim.  The interpreter walks the chain in registration
-- order; a handler step records that the handler body runs and issues its
-- SQL statements (the count 1 stands for "at least one query attempted";
-- the exact number per route is irrelevant here).  The auth gate's rejection
-- status is recorded as 401 (its 401/403 split is C3's concern, not C6's).

inductive Route where
  | health
  | signup
  | login
  | users
  | userById
  | products
  | productById
  | createProducts
  | updateProduct
  | deleteProduct
deriving Repr, DecidableEq

inductive Step where
  | authGate
  | dbGuard
  | handler (okStatus : Nat)
deriving Repr, DecidableEq

def middlewareChain : Route → List Step
  | .health => [.handler 200]
  | .signup => [.dbGuard, .handler 201]
  | .login => [.dbGuard, .handler 200]
  | .users => [.authGate, .dbGuard, .handler 200]
  | .userById => [.authGate, .dbGuard, .handler 200]
  | .products => [.authGate, .dbGuard, .handler 200]
  | .productById => [.authGate, .dbGuard, .handler 200]
  | .createProducts => [.authGate, .dbGuard, .handler 201]
  | .updateProduct => [.authGate, .dbGuard, .handler 200]
  | .deleteProduct => [.authGate, .dbGuard, .handler 200]

-- (status, number of SQL statements attempted)

def runChain (ready authOk dbOk : Bool) : List Step → Nat × Nat
  | [] => (404, 0)
  | .authGate :: rest =>
    if authOk then runChain ready authOk dbOk rest else (401, 0)
  | .dbGuard :: rest =>
    if ready then runChain ready authOk dbOk rest else (503, 0)
  | .handler okStatus :: _ => (if dbOk then okStatus else 500, 1)

/-- Claim C6 counterexample: GET /health is a data-touching route, yet with
the readiness flag false it still attempts its database query (one statement
issued) and never answers 503 — whether the query then succeeds or fails. -/
theorem C6_health_queries_when_not_ready :
    (runChain false true true (middlewareChain .health)).2 = 1
    ∧ (runChain false true false (middlewareChain .health)).2 = 1
    ∧ runChain false true true (middlewareChain .health) ≠ (503, 0)
    ∧ runChain false true false (middlewareChain .health) ≠ (503, 0) := by
  refine ⟨rfl, rfl, ?_, ?_⟩ <;> decide

/-- Claim C6 as amended: every protected or data-touching route except GET
/health consults the readiness flag before touching the database — with the
flag false no SQL statement is attempted, and whenever the request passes
the authentication gate the response is 503; GET /health attempts its probe
query regardless of the flag. -/
theorem C6_guarded_routes_block_when_not_ready (r : Route)
    (authOk dbOk : Bool) (hr : r ≠ .health) :
    (runChain false authOk dbOk (middlewareChain r)).2 = 0
    ∧ (authOk = true →
        runChain false authOk dbOk (middlewareChain r) = (503, 0)) := by
  cases r
  case health => exact absurd rfl hr
  all_goals
    cases authOk
    · exact ⟨rfl, fun h => nomatch h⟩
    · exact ⟨rfl, fun _ => rfl⟩

/-- Witness for C6's amended theorem at a concrete input: GET /users with a
valid token while the database is not ready is answered 503 with no query. -/
theorem C6_guarded_routes_block_when_not_ready_witness :
    runChain false true true (middlewareChain .users) = (503, 0) :=
  (C6_guarded_routes_block_when_not_ready .users true true (by decide)).2 rfl

-- ## Connection lifecycle (src/app.js)
-- The pool is modelled by the number of connections currently checked out;
-- getConnection checks one out (or throws), release checks it back in.
-- Failures of the underlying driver are oracle booleans.  `DbAction` is the
-- body of a JavaScript try block: it can throw, and the pool state survives
-- the throw.

structure PoolState where
  checkedOut : Nat
deriving Repr, DecidableEq

abbrev DbAction := ExceptT String (StateM PoolState)

def releasePlain : StateM PoolState Unit :=
  modify fun s => { checkedOut := s.checkedOut - 1 }

def getConnectionM (ok : Bool) : DbAction Unit :=
  if ok then
    ExceptT.lift (modify fun s => { checkedOut := s.checkedOut + 1 })
  else
    throw "connection error"

def queryM (ok : Bool) : DbAction Unit :=
  if ok then pure () else throw "query error"

def releaseM : DbAction Unit :=
  ExceptT.lift releasePlain

-- GET /health (src/app.js lines 186-210): the release sits inside the try
-- block, after the query, not in a finally —
--   const client = await getConnection();
--   const result = await client.query(...);
--   client.release();
-- so a throwing query jumps to the catch (which answers 500) with the
-- connection still checked out.

def healthRoute (acquireOk queryOk : Bool) : StateM PoolState Nat := do
  let r ← ExceptT.run (do
    getConnectionM acquireOk
    queryM queryOk
    releaseM
    pure 200)
  match r with
  | .ok st => pure st
  | .error _ => pure 500

-- POST /signup (src/app.js lines 233-295): `let client` before the try,
-- `finally { if (client) client.release(); }` — the release runs on success,
-- on a thrown insert error (409 duplicate or 500) and on a failed acquire
-- alike; `client` is bound exactly when getConnection succeeded.

def signupRoute (validBody strongPassword acquireOk insertOk dupUsername : Bool) :
    StateM PoolState Nat := do
  if !validBody then return 400
  if !strongPassword then return 400
  let r ← ExceptT.run (do
    getConnectionM acquireOk
    queryM insertOk
    pure 201)
  if acquireOk then releasePlain
  match r with
  | .ok st => return st
  | .error _ => return (if dupUsername then 409 else 500)

-- executeQuery (src/unnamed/part_001 lines 89-101): acquire, query, and a
-- finally that releases when the acquire succeeded.

def executeQueryRoute (acquireOk queryOk : Bool) : StateM PoolState Nat := do
  let r ← ExceptT.run (do
    getConnectionM acquireOk
    queryM queryOk
    pure 200)
  if acquireOk then releasePlain
  match r with
  | .ok st => return st
  | .error _ => return 500

-- Run a handler against an initially balanced pool; the result is the
-- response status together with the final pool state.

def runPool (m : StateM PoolState Nat) : Nat × PoolState :=
  m.run { checkedOut := 0 }

/-- Claim C7: the health handler violates the release-on-every-exit-path
contract.  When the acquire succeeds and the health query then throws, the
handler answers 500 with the connection still checked out of the pool —
while signup's finally-based release and part_001's executeQuery leave the
pool balanced on every combination of outcomes. -/
theorem C7_health_leaks_connection_on_query_error :
    runPool (healthRoute true false) = (500, { checkedOut := 1 })
    ∧ (∀ validBody strongPassword acquireOk insertOk dupUsername : Bool,
        (runPool (signupRoute validBody strongPassword acquireOk insertOk dupUsername)).2
          = { checkedOut := 0 })
    ∧ (∀ acquireOk queryOk : Bool,
        (runPool (executeQueryRoute acquireOk queryOk)).2 = { checkedOut := 0 }) := by
  refine ⟨?_, ?_, ?_⟩ <;> decide

end WorkAPI
